import Mathlib

/-!
Shallow embedding of the Living Textbook backend (`src/backend`): the
outbound event vocabulary of `api/websocket.py`, the vision-analysis and
script-generation agents, the per-section image stage, the Live-API
narration service, the pipeline coordinator, and the WebSocket question
handler.

Modelling conventions, mirroring the Python call sites:
- External collaborators (Gemini `generate_content`, Imagen, Cloud
  Storage uploads, the Live speech session, and `json.loads`) enter as
  oracle arguments: `Except String _` for calls that may raise (the
  error payload is the exception message), `Option` for absent results,
  and `String → Option _` for the JSON parse of a given raw text.
- Binary payloads (photo bytes, PCM chunks, PNG bytes) are opaque
  strings; the base64 encoding applied to audio chunks is
  identity-abstracted since no property below inspects chunk contents.
- JSON objects are records of `Option`-valued fields; `none` models an
  absent key, matching the `dict.get` defaults used by the code.
- `asyncio.gather` fan-out (per-section image tasks, images alongside
  narration) is represented by one fixed linearization in section
  order; no theorem below depends on cross-task event ordering.
- Python truthiness tests on strings (`if intro:`, `if not question:`,
  `if not image_bytes:`) are modelled as comparison with `""`.
-/

/-- Outbound events pushed onto the send_queue, exactly the vocabulary
listed in the protocol docstring of `api/websocket.py`. -/
inductive Event where
  | status (content : String)
  | meta (subject topic : Option String)
  | title (content : String)
  | section_start (section_id : Int)
  | audio (section_id : Int) (data : String)
  | text (section_id : Int) (content : String)
  | image_url (section_id : Int) (url : String) (caption : String)
  | section_end (section_id : Int)
  | error (content : String)
  | done
  deriving DecidableEq, Repr

/-- Vision-analysis result (`vision_agent.analyze_photo`): a JSON object
with these string fields; `none` models an absent key. -/
structure VisionR where
  subject? : Option String := none
  topic? : Option String := none
  context? : Option String := none
  question? : Option String := none
  deriving DecidableEq, Repr

/-- One script section as handled by `visual_agent` and `gemini_live`:
a JSON object whose `id`, `narration` and `image_prompt` keys may be
absent. -/
structure SectionR where
  id? : Option Int := none
  narration? : Option String := none
  image_prompt? : Option String := none
  deriving DecidableEq, Repr

/-- A generated script (`script_agent.generate_script` result): a JSON
object whose keys may be absent. -/
structure ScriptR where
  title? : Option String := none
  intro? : Option String := none
  sections? : Option (List SectionR) := none
  outro? : Option String := none
  deriving DecidableEq, Repr

/-- Characters stripped by Python `str.strip()` (ASCII whitespace). -/
def pyWs (c : Char) : Bool :=
  c == ' ' || c == '\t' || c == '\n' || c == '\r' || c == '\x0b' || c == '\x0c'

/-- Python `str.strip()` on the underlying character list. -/
def pyStrip (s : String) : String :=
  ⟨((s.data.dropWhile pyWs).reverse.dropWhile pyWs).reverse⟩

/-- Python `str.startswith`. -/
def pyStartsWith (s pre : String) : Bool :=
  pre.data.isPrefixOf s.data

/-- The markdown code-fence delimiter. -/
def fenceChars : List Char := "```".data

/-- Characters up to (excluding) the next "```", the whole list if none:
together with `List.drop 3` this computes Python `raw.split("```")[1]`
for a string that starts with "```". -/
def takeUntilFence : List Char → List Char
  | [] => []
  | c :: rest =>
    if fenceChars.isPrefixOf (c :: rest) then []
    else c :: takeUntilFence rest

/-- The fence-stripping prelude shared by `analyze_photo` and
`generate_script`: strip whitespace, drop a leading markdown code fence
(taking the text between the first pair of "```" markers and removing a
leading "json" tag), strip again. -/
def stripFences (s : String) : String :=
  let raw := pyStrip s
  let raw :=
    if pyStartsWith raw "```" then
      let mid : String := ⟨takeUntilFence (raw.data.drop 3)⟩
      if pyStartsWith mid "json" then mid.drop 4 else mid
    else raw
  pyStrip raw

/-- `vision_agent.analyze_photo`: decode the photo (may raise), call the
vision capability (may raise), fence-strip the response text, parse it
as JSON; on parse failure degrade to the hand-built record instead of
raising. `jparse` is the `json.loads`-into-`VisionR` oracle. -/
def analyze_photo (jparse : String → Option VisionR) (decodeR : Except String Unit)
    (cap : Except String String) (question : String) : Except String VisionR :=
  match decodeR with
  | .error e => .error e
  | .ok _ =>
    match cap with
    | .error e => .error e
    | .ok respText =>
      let raw := stripFences respText
      match jparse raw with
      | some v => .ok v
      | none =>
        .ok { subject? := some "General", topic? := some "Unknown",
              context? := some raw, question? := some question }

/-- The single-section fallback script built by
`script_agent.generate_script` when the model output is not JSON. -/
def fallbackScript (vision : VisionR) : ScriptR :=
  { title? := some (vision.topic?.getD "Explainer"),
    intro? := some "Let me explain this for you.",
    sections? := some
      [{ id? := some 1,
         narration? := some (vision.context?.getD "Let me walk you through this."),
         image_prompt? := some ("Educational diagram about " ++ vision.topic?.getD "the topic"
           ++ ", clean white background, colorful, labeled") }],
    outro? := some "I hope that helps!" }

/-- `script_agent.generate_script`: call the text capability (may
raise), fence-strip, parse as JSON; on parse failure substitute the
fallback script. A successfully parsed script is returned as-is. -/
def generate_script (jparse : String → Option ScriptR) (cap : Except String String)
    (vision : VisionR) : Except String ScriptR :=
  match cap with
  | .error e => .error e
  | .ok respText =>
    let raw := stripFences respText
    match jparse raw with
    | some s => .ok s
    | none => .ok (fallbackScript vision)

/-- The style preamble `imagen.py` prepends to every image prompt
(source name: STYLE_PREFIX). -/
def imageStylePreamble : String :=
  "Educational illustration, clean white background, vibrant colors, "
    ++ "clearly labeled, suitable for a student textbook, high detail: "

/-- `imagen.generate_image`: call Imagen on the style-prefixed prompt;
an exception or an empty `generated_images` list yields `none` (the
function swallows its own errors). `ext` is the Imagen oracle. -/
def generate_image (ext : String → Except String (Option String)) (prompt : String) :
    Option String :=
  match ext (imageStylePreamble ++ prompt) with
  | .error _ => none
  | .ok none => none
  | .ok (some bytes) => some bytes

/-- `visual_agent.generate_section_image`: generate an image for one
section; on missing/empty bytes or an upload exception skip (no event);
on success upload the bytes and emit one image_url event carrying the
section id, the URL, and the first 80 characters of the prompt.
Returns the events pushed and the url result. -/
def generate_section_image (ext : String → Except String (Option String))
    (upload : String → String → Except String String) (sec : SectionR) :
    List Event × Option String :=
  let section_id := sec.id?.getD 0
  let image_prompt := sec.image_prompt?.getD "educational diagram"
  match generate_image ext image_prompt with
  | none => ([], none)
  | some bytes =>
    if bytes = "" then ([], none)
    else
      match upload bytes ("section_" ++ toString section_id ++ ".png") with
      | .error _ => ([], none)
      | .ok url => ([Event.image_url section_id url (image_prompt.take 80)], some url)

/-- `visual_agent.generate_all_images`: return immediately on an
empty/missing section list, otherwise attempt every section
(`asyncio.gather` with return_exceptions, linearized in section
order). -/
def generate_all_images (ext : String → Except String (Option String))
    (upload : String → String → Except String String) (script : ScriptR) : List Event :=
  let sections := script.sections?.getD []
  if sections.isEmpty then []
  else sections.flatMap (fun s => (generate_section_image ext upload s).1)

/-- One response unit from `session.receive()` in `gemini_live.py`:
audio data, transcript text (`""` models an absent/falsy field), and
the server_content turn_complete flag. -/
structure LiveResponse where
  data : String := ""
  text : String := ""
  turnComplete : Bool := false
  deriving DecidableEq, Repr

/-- Outcome of submitting one turn to the Live session: the response
units yielded in order, then an optional exception raised afterwards
(`none` when the stream ends a turn normally). A `send_client_content`
failure is a result with no units and an error. -/
structure TurnResult where
  units : List LiveResponse := []
  err : Option String := none

/-- The receive loop of `gemini_live._narrate_text`: for each response
emit an audio event for non-empty data and a text event for non-empty
text, stop after the first turn_complete response (its own events
included, any later error never raised); otherwise the trailing error
is reported. Returns the emitted events and the surviving error. -/
def narrateTurn (section_id : Int) : List LiveResponse → Option String →
    List Event × Option String
  | [], e => ([], e)
  | r :: rest, e =>
    let evs := (if r.data ≠ "" then [Event.audio section_id r.data] else []) ++
      (if r.text ≠ "" then [Event.text section_id r.text] else [])
    if r.turnComplete then (evs, none)
    else (evs ++ (narrateTurn section_id rest e).1, (narrateTurn section_id rest e).2)

/-- `gemini_live._narrate_text` over a session oracle mapping each
submitted text to its turn outcome. -/
def narrate_text (sess : String → TurnResult) (text : String) (section_id : Int) :
    List Event × Option String :=
  narrateTurn section_id (sess text).units (sess text).err

/-- The events one submitted turn contributes. -/
def turnEvs (sess : String → TurnResult) (section_id : Int) (text : String) : List Event :=
  (narrate_text sess text section_id).1

/-- The section loop of `gemini_live.narrate_script`: for each section
(id defaulting to 0, narration defaulting to "") emit section_start,
the turn's events, then section_end; a turn error stops the loop before
that section's section_end and is reported to the caller. -/
def narrateSections (sess : String → TurnResult) :
    List SectionR → List Event × Option String
  | [] => ([], none)
  | sec :: rest =>
    let section_id := sec.id?.getD 0
    let tr := narrate_text sess (sec.narration?.getD "") section_id
    match tr.2 with
    | some msg => (Event.section_start section_id :: tr.1, some msg)
    | none =>
      (Event.section_start section_id ::
        (tr.1 ++ (Event.section_end section_id :: (narrateSections sess rest).1)),
       (narrateSections sess rest).2)

/-- The error event `narrate_script`'s except-handler pushes. -/
def narrationError (msg : String) : Event :=
  Event.error ("Narration error: " ++ msg)

/-- `gemini_live.narrate_script`: connect one Live session (`connect`
is the `client.aio.live.connect` outcome); narrate a non-empty intro
under id 0, every section in order, then a non-empty outro under id -1;
any exception along the way stops narration and appends exactly one
narration error event. -/
def narrate_script (connect : Except String (String → TurnResult)) (script : ScriptR) :
    List Event :=
  match connect with
  | .error msg => [narrationError msg]
  | .ok sess =>
    let introT := script.intro?.getD ""
    let outroT := script.outro?.getD ""
    let sections := script.sections?.getD []
    let ir := if introT ≠ "" then narrate_text sess introT 0 else ([], none)
    match ir.2 with
    | some msg => ir.1 ++ [narrationError msg]
    | none =>
      let sr := narrateSections sess sections
      match sr.2 with
      | some msg => ir.1 ++ sr.1 ++ [narrationError msg]
      | none =>
        let orr := if outroT ≠ "" then narrate_text sess outroT (-1) else ([], none)
        match orr.2 with
        | some msg => ir.1 ++ sr.1 ++ orr.1 ++ [narrationError msg]
        | none => ir.1 ++ sr.1 ++ orr.1

/-- All collaborator outcomes one pipeline run depends on. -/
structure PipelineEnv where
  jparseV : String → Option VisionR
  decodeR : Except String Unit
  visionCap : Except String String
  jparseS : String → Option ScriptR
  scriptCap : Except String String
  imgCap : String → Except String (Option String)
  upload : String → String → Except String String
  connect : Except String (String → TurnResult)

/-- The error event `coordinator.run_pipeline`'s except-handler pushes. -/
def pipelineError (msg : String) : Event :=
  Event.error ("Something went wrong: " ++ msg)

/-- `coordinator.run_pipeline`: status, vision analysis, meta, status,
script generation, title, then images and narration (gathered;
linearized images-first), then done; an exception escaping a stage
yields one error event followed by done. -/
def run_pipeline (env : PipelineEnv) (question : String) : List Event :=
  let e1 := [Event.status "Analyzing your image..."]
  match analyze_photo env.jparseV env.decodeR env.visionCap question with
  | .error msg => e1 ++ [pipelineError msg, Event.done]
  | .ok vision =>
    let e2 := e1 ++ [Event.meta vision.subject? vision.topic?,
      Event.status "Preparing your explainer..."]
    match generate_script env.jparseS env.scriptCap vision with
    | .error msg => e2 ++ [pipelineError msg, Event.done]
    | .ok script =>
      e2 ++ [Event.title (script.title?.getD "Your Explainer")]
        ++ generate_all_images env.imgCap env.upload script
        ++ narrate_script env.connect script
        ++ [Event.done]

/-- The stored pipeline task of one WebSocket session: its job identity
and whether it already finished (`task.done()`). -/
structure WsTask where
  jobId : Nat
  finished : Bool
  deriving DecidableEq, Repr

/-- Per-connection session state of `api/websocket.py`: the stored
photo, the active pipeline task, and the unconsumed send_queue
contents. -/
structure WsState where
  photo_b64 : Option String := none
  pipeline_task : Option WsTask := none
  queue : List Event := []

/-- Side effects of the question handler, in execution order. -/
inductive WsAction where
  | cancelAwait (jobId : Nat)
  | drainQueue
  | startJob (jobId : Nat)
  deriving DecidableEq, Repr

/-- `websocket.cancel_pipeline`: cancel the stored task and await it,
only when one exists and is not already done. -/
def cancel_pipeline (st : WsState) : List WsAction :=
  match st.pipeline_task with
  | some t => if t.finished then [] else [WsAction.cancelAwait t.jobId]
  | none => []

/-- The "question" branch of `websocket_endpoint`: reject empty
(stripped) text or a missing/empty stored photo with an error event and
no other change; otherwise cancel-and-await any previous pipeline,
drain the queue, and start the new job. Returns the new state and the
actions performed in order. -/
def handle_question (st : WsState) (text : String) (newJob : Nat) :
    WsState × List WsAction :=
  let question := pyStrip text
  if question = "" then
    ({ st with queue := st.queue ++ [Event.error "Question text is empty."] }, [])
  else if st.photo_b64.getD "" = "" then
    ({ st with queue := st.queue ++ [Event.error "Please capture a photo first."] }, [])
  else
    ({ photo_b64 := st.photo_b64,
       pipeline_task := some { jobId := newJob, finished := false },
       queue := [] },
     cancel_pipeline st ++ [WsAction.drainQueue, WsAction.startJob newJob])

/-! ### Event predicates -/

/-- An audio or text event carrying the given section id. -/
def contentTagged (section_id : Int) : Event → Bool
  | .audio s _ => s == section_id
  | .text s _ => s == section_id
  | _ => false

/-- Recognize meta events. -/
def isMetaEv : Event → Bool
  | .meta _ _ => true
  | _ => false

/-- Recognize error events. -/
def isErrorEv : Event → Bool
  | .error _ => true
  | _ => false

/-- Recognize section_start events. -/
def isStartEv : Event → Bool
  | .section_start _ => true
  | _ => false

/-- Recognize section_end events. -/
def isEndEv : Event → Bool
  | .section_end _ => true
  | _ => false

/-- Recognize the done event. -/
def isDoneEv : Event → Bool
  | .done => true
  | _ => false

/-- The section id an event is tagged with, if any. -/
def eventSectionId : Event → Option Int
  | .section_start s => some s
  | .audio s _ => some s
  | .text s _ => some s
  | .image_url s _ _ => some s
  | .section_end s => some s
  | _ => none

/-- The event kinds the narration stage can push: audio/text chunks,
section markers, and narration errors. -/
def isNarrKind : Event → Bool
  | .audio _ _ => true
  | .text _ _ => true
  | .section_start _ => true
  | .section_end _ => true
  | .error _ => true
  | _ => false

/-! ### Narration structure helpers -/

/-- The section id the code tags a section's events with. -/
def sectionTag (sec : SectionR) : Int := sec.id?.getD 0

/-- The full event block one section contributes on the happy path:
its start marker, its turn's events, its end marker. -/
def sectionBlock (sess : String → TurnResult) (sec : SectionR) : List Event :=
  Event.section_start (sectionTag sec) ::
    (turnEvs sess (sectionTag sec) (sec.narration?.getD "") ++
      [Event.section_end (sectionTag sec)])

/-- The events the intro narration contributes (empty when the intro is
empty or absent). -/
def introEvents (sess : String → TurnResult) (script : ScriptR) : List Event :=
  if script.intro?.getD "" ≠ "" then turnEvs sess 0 (script.intro?.getD "") else []

/-- The events the outro narration contributes (empty when the outro is
empty or absent). -/
def outroEvents (sess : String → TurnResult) (script : ScriptR) : List Event :=
  if script.outro?.getD "" ≠ "" then turnEvs sess (-1) (script.outro?.getD "") else []

/-- A Live session that never raises during a turn. -/
def noTurnFailure (sess : String → TurnResult) : Prop :=
  ∀ t, (sess t).err = none

/-! ### Helper lemmas -/

theorem narrateTurn_err_none (section_id : Int) :
    ∀ us, (narrateTurn section_id us none).2 = none := by
  intro us
  induction us with
  | nil => rfl
  | cons r rest ih =>
    simp only [narrateTurn]
    split
    · rfl
    · simpa using ih

theorem narrate_text_err_none (sess : String → TurnResult) (h : noTurnFailure sess)
    (t : String) (section_id : Int) : (narrate_text sess t section_id).2 = none := by
  unfold narrate_text
  rw [h t]
  exact narrateTurn_err_none section_id (sess t).units

theorem mem_narrateTurn_content (section_id : Int) :
    ∀ us e0 e, e ∈ (narrateTurn section_id us e0).1 → contentTagged section_id e = true := by
  intro us
  induction us with
  | nil => intro e0 e h; simp [narrateTurn] at h
  | cons r rest ih =>
    intro e0 e h
    simp only [narrateTurn] at h
    have hbase : e ∈ ((if r.data ≠ "" then [Event.audio section_id r.data] else []) ++
        (if r.text ≠ "" then [Event.text section_id r.text] else [])) →
        contentTagged section_id e = true := by
      intro hm
      rcases List.mem_append.1 hm with hm | hm
      · split at hm
        · rcases List.mem_singleton.1 hm with rfl
          simp [contentTagged]
        · simp at hm
      · split at hm
        · rcases List.mem_singleton.1 hm with rfl
          simp [contentTagged]
        · simp at hm
    split at h
    · exact hbase h
    · rcases List.mem_append.1 h with hm | hm
      · exact hbase hm
      · exact ih e0 e hm

theorem mem_turnEvs_content (sess : String → TurnResult) (section_id : Int) (t : String)
    (e : Event) (h : e ∈ turnEvs sess section_id t) : contentTagged section_id e = true :=
  mem_narrateTurn_content section_id (sess t).units (sess t).err e h

theorem contentTagged_kind (section_id : Int) (e : Event)
    (h : contentTagged section_id e = true) :
    isNarrKind e = true ∧ isStartEv e = false ∧ isEndEv e = false ∧ isErrorEv e = false ∧
      isMetaEv e = false ∧ isDoneEv e = false ∧ eventSectionId e = some section_id := by
  cases e <;> simp_all [contentTagged, isNarrKind, isStartEv, isEndEv, isErrorEv, isMetaEv,
    isDoneEv, eventSectionId]

theorem narrateSections_noFail (sess : String → TurnResult) (h : noTurnFailure sess) :
    ∀ ss : List SectionR,
      narrateSections sess ss = (ss.flatMap (sectionBlock sess), none) := by
  intro ss
  induction ss with
  | nil => rfl
  | cons sec rest ih =>
    simp only [narrateSections]
    rw [narrate_text_err_none sess h]
    simp only [ih, List.flatMap_cons]
    simp [sectionBlock, turnEvs, sectionTag, List.cons_append, List.append_assoc]

theorem narrate_script_noFail (sess : String → TurnResult) (h : noTurnFailure sess)
    (script : ScriptR) :
    narrate_script (Except.ok sess) script =
      introEvents sess script ++
        (script.sections?.getD []).flatMap (sectionBlock sess) ++
        outroEvents sess script := by
  by_cases hi : script.intro?.getD "" ≠ "" <;>
  by_cases ho : script.outro?.getD "" ≠ "" <;>
  simp [narrate_script, hi, ho, narrate_text_err_none sess h,
    narrateSections_noFail sess h, introEvents, outroEvents, turnEvs]

theorem mem_narrateSections_kind (sess : String → TurnResult) :
    ∀ (ss : List SectionR) (e : Event), e ∈ (narrateSections sess ss).1 →
      isNarrKind e = true := by
  intro ss
  induction ss with
  | nil => intro e h; simp [narrateSections] at h
  | cons sec rest ih =>
    intro e h
    simp only [narrateSections] at h
    split at h
    · rcases List.mem_cons.1 h with rfl | hm
      · rfl
      · exact (contentTagged_kind _ e (mem_narrateTurn_content _ _ _ e hm)).1
    · rcases List.mem_cons.1 h with rfl | hm
      · rfl
      · rcases List.mem_append.1 hm with hm | hm
        · exact (contentTagged_kind _ e (mem_narrateTurn_content _ _ _ e hm)).1
        · rcases List.mem_cons.1 hm with rfl | hm
          · rfl
          · exact ih e hm

theorem mem_if_narrate_text {c : Prop} [Decidable c] (sess : String → TurnResult)
    (t : String) (section_id : Int) (e : Event)
    (h : e ∈ (if c then narrate_text sess t section_id
      else (([], none) : List Event × Option String)).1) :
    contentTagged section_id e = true := by
  split at h
  · exact mem_narrateTurn_content section_id _ _ e h
  · simp at h

theorem mem_narrate_script_kind (connect : Except String (String → TurnResult))
    (script : ScriptR) (e : Event) (h : e ∈ narrate_script connect script) :
    isNarrKind e = true := by
  cases connect with
  | error msg =>
    simp only [narrate_script, List.mem_singleton] at h
    subst h; rfl
  | ok sess =>
    simp only [narrate_script] at h
    split at h
    · rcases List.mem_append.1 h with hm | hm
      · exact (contentTagged_kind 0 e (mem_if_narrate_text sess _ 0 e hm)).1
      · rcases List.mem_singleton.1 hm with rfl
        rfl
    · split at h
      · rcases List.mem_append.1 h with hm | hm
        · rcases List.mem_append.1 hm with hm | hm
          · exact (contentTagged_kind 0 e (mem_if_narrate_text sess _ 0 e hm)).1
          · exact mem_narrateSections_kind sess _ e hm
        · rcases List.mem_singleton.1 hm with rfl
          rfl
      · split at h
        · rcases List.mem_append.1 h with hm | hm
          · rcases List.mem_append.1 hm with hm | hm
            · rcases List.mem_append.1 hm with hm | hm
              · exact (contentTagged_kind 0 e (mem_if_narrate_text sess _ 0 e hm)).1
              · exact mem_narrateSections_kind sess _ e hm
            · exact (contentTagged_kind (-1) e (mem_if_narrate_text sess _ (-1) e hm)).1
          · rcases List.mem_singleton.1 hm with rfl
            rfl
        · rcases List.mem_append.1 h with hm | hm
          · rcases List.mem_append.1 hm with hm | hm
            · exact (contentTagged_kind 0 e (mem_if_narrate_text sess _ 0 e hm)).1
            · exact mem_narrateSections_kind sess _ e hm
          · exact (contentTagged_kind (-1) e (mem_if_narrate_text sess _ (-1) e hm)).1

theorem isNarrKind_not_meta_done (e : Event) (h : isNarrKind e = true) :
    isMetaEv e = false ∧ isDoneEv e = false := by
  cases e <;> simp_all [isNarrKind, isMetaEv, isDoneEv]

theorem mem_generate_section_image (ext : String → Except String (Option String))
    (upload : String → String → Except String String) (sec : SectionR) (e : Event)
    (h : e ∈ (generate_section_image ext upload sec).1) :
    ∃ url, e = Event.image_url (sec.id?.getD 0) url
      ((sec.image_prompt?.getD "educational diagram").take 80) := by
  simp only [generate_section_image] at h
  split at h
  · simp at h
  · split at h
    · simp at h
    · split at h
      · simp at h
      · rcases List.mem_singleton.1 h with rfl
        exact ⟨_, rfl⟩

theorem mem_generate_all_images (ext : String → Except String (Option String))
    (upload : String → String → Except String String) (script : ScriptR) (e : Event)
    (h : e ∈ generate_all_images ext upload script) :
    ∃ sec ∈ script.sections?.getD [], ∃ url,
      e = Event.image_url (sec.id?.getD 0) url
        ((sec.image_prompt?.getD "educational diagram").take 80) := by
  simp only [generate_all_images] at h
  split at h
  · simp at h
  · rcases List.mem_flatMap.1 h with ⟨sec, hsec, hm⟩
    exact ⟨sec, hsec, mem_generate_section_image ext upload sec e hm⟩

theorem countP_narrate_script_meta (connect : Except String (String → TurnResult))
    (script : ScriptR) : (narrate_script connect script).countP isMetaEv = 0 := by
  rw [List.countP_eq_zero]
  intro e he
  have := (isNarrKind_not_meta_done e (mem_narrate_script_kind connect script e he)).1
  simp [this]

theorem countP_generate_all_images_meta (ext : String → Except String (Option String))
    (upload : String → String → Except String String) (script : ScriptR) :
    (generate_all_images ext upload script).countP isMetaEv = 0 := by
  rw [List.countP_eq_zero]
  intro e he
  rcases mem_generate_all_images ext upload script e he with ⟨sec, _, url, rfl⟩
  simp [isMetaEv]

theorem countP_start_flatMap (sess : String → TurnResult) :
    ∀ ss : List SectionR,
      ((ss.flatMap (sectionBlock sess)).countP isStartEv) = ss.length := by
  intro ss
  induction ss with
  | nil => rfl
  | cons sec rest ih =>
    have h0 : (turnEvs sess (sectionTag sec) (sec.narration?.getD "")).countP isStartEv = 0 := by
      rw [List.countP_eq_zero]
      intro e he
      have := (contentTagged_kind _ e (mem_turnEvs_content sess _ _ e he)).2.1
      simp [this]
    simp [List.flatMap_cons, List.countP_append, ih, sectionBlock, List.countP_cons, h0,
      isStartEv, isEndEv]

theorem countP_end_flatMap (sess : String → TurnResult) :
    ∀ ss : List SectionR,
      ((ss.flatMap (sectionBlock sess)).countP isEndEv) = ss.length := by
  intro ss
  induction ss with
  | nil => rfl
  | cons sec rest ih =>
    have h0 : (turnEvs sess (sectionTag sec) (sec.narration?.getD "")).countP isEndEv = 0 := by
      rw [List.countP_eq_zero]
      intro e he
      have := (contentTagged_kind _ e (mem_turnEvs_content sess _ _ e he)).2.2.1
      simp [this]
    simp [List.flatMap_cons, List.countP_append, ih, sectionBlock, List.countP_cons, h0,
      isStartEv, isEndEv]

theorem countP_content_zero (l : List Event) (section_id : Int) (p : Event → Bool)
    (h : ∀ e ∈ l, contentTagged section_id e = true)
    (hp : ∀ e, contentTagged section_id e = true → p e = false) :
    l.countP p = 0 := by
  rw [List.countP_eq_zero]
  intro e he
  simp [hp e (h e he)]

theorem mem_introEvents_content (sess : String → TurnResult) (script : ScriptR) (e : Event)
    (h : e ∈ introEvents sess script) : contentTagged 0 e = true := by
  unfold introEvents at h
  split at h
  · exact mem_turnEvs_content sess 0 _ e h
  · simp at h

theorem mem_outroEvents_content (sess : String → TurnResult) (script : ScriptR) (e : Event)
    (h : e ∈ outroEvents sess script) : contentTagged (-1) e = true := by
  unfold outroEvents at h
  split at h
  · exact mem_turnEvs_content sess (-1) _ e h
  · simp at h

/-! ### Claim theorems -/

/-- C1: On a failure-free speech session, `narrate_script` emits the
intro's content events (tagged with the reserved id 0), then exactly
one section_start/section_end pair per section in document order, each
pair enclosing exactly that section's audio/text events tagged with
that section's id — so no two sections' pairs interleave — then the
outro's content events tagged with the sentinel id -1; intro and outro
contribute no start/end events, and the whole run carries exactly one
start and one end per section. -/
theorem narration_section_structure (sess : String → TurnResult) (script : ScriptR)
    (h : noTurnFailure sess) :
    narrate_script (Except.ok sess) script =
      introEvents sess script ++
        (script.sections?.getD []).flatMap (sectionBlock sess) ++
        outroEvents sess script ∧
    (∀ sec : SectionR, sectionBlock sess sec =
      Event.section_start (sectionTag sec) ::
        (turnEvs sess (sectionTag sec) (sec.narration?.getD "") ++
          [Event.section_end (sectionTag sec)])) ∧
    (∀ (section_id : Int) (t : String), ∀ e ∈ turnEvs sess section_id t,
      contentTagged section_id e = true) ∧
    (∀ e ∈ introEvents sess script, contentTagged 0 e = true) ∧
    (∀ e ∈ outroEvents sess script, contentTagged (-1) e = true) ∧
    (narrate_script (Except.ok sess) script).countP isStartEv =
      (script.sections?.getD []).length ∧
    (narrate_script (Except.ok sess) script).countP isEndEv =
      (script.sections?.getD []).length := by
  have hin : (introEvents sess script).countP isStartEv = 0 ∧
      (introEvents sess script).countP isEndEv = 0 :=
    ⟨countP_content_zero _ 0 _ (fun e he => mem_introEvents_content sess script e he)
      (fun e hc => (contentTagged_kind 0 e hc).2.1),
     countP_content_zero _ 0 _ (fun e he => mem_introEvents_content sess script e he)
      (fun e hc => (contentTagged_kind 0 e hc).2.2.1)⟩
  have hout : (outroEvents sess script).countP isStartEv = 0 ∧
      (outroEvents sess script).countP isEndEv = 0 :=
    ⟨countP_content_zero _ (-1) _ (fun e he => mem_outroEvents_content sess script e he)
      (fun e hc => (contentTagged_kind (-1) e hc).2.1),
     countP_content_zero _ (-1) _ (fun e he => mem_outroEvents_content sess script e he)
      (fun e hc => (contentTagged_kind (-1) e hc).2.2.1)⟩
  refine ⟨narrate_script_noFail sess h script, fun sec => rfl,
    fun section_id t e he => mem_turnEvs_content sess section_id t e he,
    fun e he => mem_introEvents_content sess script e he,
    fun e he => mem_outroEvents_content sess script e he, ?_, ?_⟩
  · rw [narrate_script_noFail sess h script, List.countP_append, List.countP_append,
      countP_start_flatMap, hin.1, hout.1]
    omega
  · rw [narrate_script_noFail sess h script, List.countP_append, List.countP_append,
      countP_end_flatMap, hin.2, hout.2]
    omega

/-- A failure-free one-response Live session used by concrete witnesses. -/
def sess0 : String → TurnResult :=
  fun _ => { units := [{ data := "AA", text := "hi", turnComplete := true }], err := none }

/-- A two-section script used by concrete witnesses. -/
def script0 : ScriptR :=
  { title? := some "T", intro? := some "Welcome",
    sections? := some
      [{ id? := some 1, narration? := some "one", image_prompt? := some "p1" },
       { id? := some 2, narration? := some "two", image_prompt? := some "p2" }],
    outro? := some "Bye" }

/-- C1 witness: the failure-free hypothesis holds of `sess0` at a
concrete point, and the structure theorem applies to `sess0` and
`script0`. -/
theorem narration_section_structure_witness :
    (sess0 "Welcome").err = none ∧
      narrate_script (Except.ok sess0) script0 =
        introEvents sess0 script0 ++
          (script0.sections?.getD []).flatMap (sectionBlock sess0) ++
          outroEvents sess0 script0 :=
  ⟨rfl, (narration_section_structure sess0 script0 (fun _ => rfl)).1⟩

/-- C9: A section whose record lacks an id is processed by both stages
under section id 0, the id reserved for the intro: its image event is
tagged 0, its narration block is a start/end pair at id 0 enclosing
turn events at id 0, and intro turn events carry that same tag 0 — so
the client cannot distinguish them by section id. -/
theorem missing_id_section_tagged_zero (ext : String → Except String (Option String))
    (upload : String → String → Except String String) (sess : String → TurnResult)
    (sec : SectionR) (h : sec.id? = none) :
    sectionTag sec = 0 ∧
    (∀ e ∈ (generate_section_image ext upload sec).1, eventSectionId e = some 0) ∧
    sectionBlock sess sec =
      Event.section_start 0 ::
        (turnEvs sess 0 (sec.narration?.getD "") ++ [Event.section_end 0]) ∧
    (∀ t : String, ∀ e ∈ turnEvs sess 0 t, contentTagged 0 e = true) := by
  have htag : sectionTag sec = 0 := by simp [sectionTag, h]
  refine ⟨htag, ?_, ?_, fun t e he => mem_turnEvs_content sess 0 t e he⟩
  · intro e he
    rcases mem_generate_section_image ext upload sec e he with ⟨url, rfl⟩
    simp [eventSectionId, h]
  · simp [sectionBlock, htag]

/-- A section record with no id, used by concrete witnesses. -/
def secNoId : SectionR :=
  { id? := none, narration? := some "n", image_prompt? := some "p" }

/-- An Imagen oracle that always returns bytes, and an upload oracle
that always returns a fixed URL, used by concrete witnesses. -/
def extOk : String → Except String (Option String) := fun _ => Except.ok (some "BYTES")

/-- See `extOk`. -/
def uploadOk : String → String → Except String String := fun _ _ => Except.ok "http://u"

/-- C9 witness: the id-less section's tag is 0 and its narration block
is the id-0 start/end pair around id-0 turn events. -/
theorem missing_id_section_tagged_zero_witness :
    sectionTag secNoId = 0 ∧
      sectionBlock sess0 secNoId =
        Event.section_start 0 ::
          (turnEvs sess0 0 (secNoId.narration?.getD "") ++ [Event.section_end 0]) :=
  ⟨(missing_id_section_tagged_zero extOk uploadOk sess0 secNoId rfl).1,
   (missing_id_section_tagged_zero extOk uploadOk sess0 secNoId rfl).2.2.1⟩

/-- C10: For a script with an empty or missing section list, the media
stage returns immediately with no events, while narration still opens
the Live session (a failed connect still yields its narration error
event) and narrates a non-empty intro under id 0 and a non-empty outro
under id -1; on a failure-free session the narration output contains no
section_start, section_end or error events, and neither stage raises. -/
theorem empty_script_stages (ext : String → Except String (Option String))
    (upload : String → String → Except String String) (sess : String → TurnResult)
    (script : ScriptR) (h : noTurnFailure sess)
    (hs : script.sections?.getD [] = []) :
    generate_all_images ext upload script = [] ∧
    narrate_script (Except.ok sess) script =
      introEvents sess script ++ outroEvents sess script ∧
    (script.intro?.getD "" ≠ "" →
      introEvents sess script = turnEvs sess 0 (script.intro?.getD "")) ∧
    (script.outro?.getD "" ≠ "" →
      outroEvents sess script = turnEvs sess (-1) (script.outro?.getD "")) ∧
    (∀ e ∈ narrate_script (Except.ok sess) script,
      isStartEv e = false ∧ isEndEv e = false ∧ isErrorEv e = false) ∧
    (∀ m, narrate_script (Except.error m) script = [narrationError m]) := by
  have hnarr : narrate_script (Except.ok sess) script =
      introEvents sess script ++ outroEvents sess script := by
    rw [narrate_script_noFail sess h script, hs]
    simp
  refine ⟨by simp [generate_all_images, hs], hnarr,
    fun hi => by simp [introEvents, hi], fun ho => by simp [outroEvents, ho],
    ?_, fun m => rfl⟩
  intro e he
  rw [hnarr] at he
  rcases List.mem_append.1 he with hm | hm
  · have hc := mem_introEvents_content sess script e hm
    exact ⟨(contentTagged_kind 0 e hc).2.1, (contentTagged_kind 0 e hc).2.2.1,
      (contentTagged_kind 0 e hc).2.2.2.1⟩
  · have hc := mem_outroEvents_content sess script e hm
    exact ⟨(contentTagged_kind (-1) e hc).2.1, (contentTagged_kind (-1) e hc).2.2.1,
      (contentTagged_kind (-1) e hc).2.2.2.1⟩

/-- A script whose sections list is present but empty, with a non-empty
intro and outro, used by concrete witnesses. -/
def scriptNoSections : ScriptR :=
  { title? := some "T", intro? := some "Hi", sections? := some [], outro? := some "Bye" }

/-- C10 witness: the empty-sections script yields no image events and a
narration consisting of intro and outro events only. -/
theorem empty_script_stages_witness :
    generate_all_images extOk uploadOk scriptNoSections = [] ∧
      narrate_script (Except.ok sess0) scriptNoSections =
        introEvents sess0 scriptNoSections ++ outroEvents sess0 scriptNoSections :=
  ⟨(empty_script_stages extOk uploadOk sess0 scriptNoSections (fun _ => rfl) rfl).1,
   (empty_script_stages extOk uploadOk sess0 scriptNoSections (fun _ => rfl) rfl).2.1⟩

/-- C5: When Imagen, called at the style-prefixed prompt, returns image
bytes and the storage upload of those bytes returns a URL,
`generate_section_image` emits exactly one image event carrying the
section id, that URL, and a caption derived from the prompt (its first
80 characters). -/
theorem generate_section_image_success (ext : String → Except String (Option String))
    (upload : String → String → Except String String) (sec : SectionR)
    (bytes url : String)
    (hext : ext (imageStylePreamble ++ sec.image_prompt?.getD "educational diagram") =
      Except.ok (some bytes))
    (hb : bytes ≠ "")
    (hup : upload bytes ("section_" ++ toString (sec.id?.getD 0) ++ ".png") =
      Except.ok url) :
    generate_section_image ext upload sec =
      ([Event.image_url (sec.id?.getD 0) url
          ((sec.image_prompt?.getD "educational diagram").take 80)],
        some url) := by
  simp [generate_section_image, generate_image, hext, hb, hup]

set_option maxRecDepth 10000 in
/-- C5 witness: concrete oracles returning bytes and a URL produce the
single image event for a concrete section. -/
theorem generate_section_image_success_witness :
    generate_section_image extOk uploadOk
        { id? := some 3, narration? := some "n3", image_prompt? := some "p3" } =
      ([Event.image_url 3 "http://u" "p3"], some "http://u") := by
  have h := generate_section_image_success extOk uploadOk
    { id? := some 3, narration? := some "n3", image_prompt? := some "p3" }
    "BYTES" "http://u" rfl (by decide) rfl
  simpa using h

/-- C6: The media stage attempts every section and never short-circuits:
its output is the concatenation of each section's own contribution; a
section whose Imagen result is absent or failed contributes no events,
while a section whose Imagen and upload calls succeed contributes its
image event — each independent of every other section's outcome, and
the stage is a total function, so the job is never aborted. -/
theorem generate_all_images_independent (ext : String → Except String (Option String))
    (upload : String → String → Except String String) (script : ScriptR) :
    generate_all_images ext upload script =
      (script.sections?.getD []).flatMap
        (fun s => (generate_section_image ext upload s).1) ∧
    (∀ sec : SectionR,
      generate_image ext (sec.image_prompt?.getD "educational diagram") = none →
      (generate_section_image ext upload sec).1 = []) ∧
    (∀ (sec : SectionR) (bytes url : String),
      ext (imageStylePreamble ++ sec.image_prompt?.getD "educational diagram") =
        Except.ok (some bytes) → bytes ≠ "" →
      upload bytes ("section_" ++ toString (sec.id?.getD 0) ++ ".png") = Except.ok url →
      (generate_section_image ext upload sec).1 =
        [Event.image_url (sec.id?.getD 0) url
          ((sec.image_prompt?.getD "educational diagram").take 80)]) := by
  refine ⟨?_, ?_, ?_⟩
  · by_cases hemp : (script.sections?.getD []).isEmpty
    · simp [generate_all_images, hemp, List.isEmpty_iff.1 hemp]
    · simp [generate_all_images, hemp]
  · intro sec hgen
    simp [generate_section_image, hgen]
  · intro sec bytes url hext hb hup
    rw [generate_section_image_success ext upload sec bytes url hext hb hup]

/-- An Imagen oracle that fails exactly on section 2's prompt of
`script3` below, used for the forced-failure witness. -/
def extFail2 : String → Except String (Option String) :=
  fun p => if p = imageStylePreamble ++ "p2" then Except.ok none
    else Except.ok (some "BYTES")

/-- A three-section script used for the forced-failure witness. -/
def script3 : ScriptR :=
  { title? := some "T", intro? := some "Hi",
    sections? := some
      [{ id? := some 1, narration? := some "one", image_prompt? := some "p1" },
       { id? := some 2, narration? := some "two", image_prompt? := some "p2" },
       { id? := some 3, narration? := some "three", image_prompt? := some "p3" }],
    outro? := some "Bye" }

set_option maxRecDepth 10000 in
/-- C6 witness: with Imagen forced to fail on section 2 of the
three-section script, the stage still emits the image events of
sections 1 and 3. -/
theorem generate_all_images_independent_witness :
    generate_all_images extFail2 uploadOk script3 =
      [Event.image_url 1 "http://u" "p1", Event.image_url 3 "http://u" "p3"] := by
  have h := (generate_all_images_independent extFail2 uploadOk script3).1
  rw [h]
  rfl

/-- A parse oracle that rejects everything, modelling `json.loads`
failing on non-JSON text. -/
def jparseNoneV : String → Option VisionR := fun _ => none

/-- See `jparseNoneV`. -/
def jparseNoneS : String → Option ScriptR := fun _ => none

/-- C7 (amended): When the vision capability's output does not parse as
JSON, `analyze_photo` does not fail: it returns the synthesized record
with subject "General", topic "Unknown", description equal to the
received text after whitespace/markdown-fence stripping, and the
original question verbatim. -/
theorem analyze_photo_degraded (jparse : String → Option VisionR) (resp q : String)
    (h : jparse (stripFences resp) = none) :
    analyze_photo jparse (Except.ok ()) (Except.ok resp) q =
      Except.ok { subject? := some "General", topic? := some "Unknown",
                  context? := some (stripFences resp), question? := some q } := by
  simp [analyze_photo, h]

/-- C7 witness: a concrete unparseable response yields the degraded
record with the stripped text and the verbatim question. -/
theorem analyze_photo_degraded_witness :
    analyze_photo jparseNoneV (Except.ok ()) (Except.ok "junk") "why" =
      Except.ok { subject? := some "General", topic? := some "Unknown",
                  context? := some "junk", question? := some "why" } := by
  have h := analyze_photo_degraded jparseNoneV "junk" "why" rfl
  simpa using h

/-- C7 counterexample: for the fenced response "``` x ```" the degraded
record's description is the stripped text "x", not the raw text
received — so "description equal to the raw text received" fails as
stated. -/
theorem analyze_photo_raw_text_counterexample :
    analyze_photo jparseNoneV (Except.ok ()) (Except.ok "``` x ```") "q" =
      Except.ok { subject? := some "General", topic? := some "Unknown",
                  context? := some "x", question? := some "q" } ∧
    ("x" : String) ≠ "``` x ```" := by
  constructor
  · rfl
  · decide

/-- C3 (amended): Only on the JSON-parse-failure path does the
scripting stage enforce section shape: the substituted fallback script
has a non-empty sections list consisting of exactly one section whose
id is 1 (ids sequential from 1); a successfully parsed output is
returned as-is, with no section validation and no id assignment. -/
theorem generate_script_fallback (jparse : String → Option ScriptR)
    (resp : String) (vision : VisionR) (h : jparse (stripFences resp) = none) :
    generate_script jparse (Except.ok resp) vision = Except.ok (fallbackScript vision) ∧
    (fallbackScript vision).sections?.getD [] ≠ [] ∧
    ((fallbackScript vision).sections?.getD []).map (fun s => s.id?) = [some 1] := by
  refine ⟨?_, ?_, rfl⟩
  · simp [generate_script, h]
  · simp [fallbackScript]

/-- C3 amended-claim witness: on a concrete unparseable response the
fallback script is returned and carries the single id-1 section. -/
theorem generate_script_fallback_witness :
    generate_script jparseNoneS (Except.ok "junk") { topic? := some "Topic" } =
      Except.ok (fallbackScript { topic? := some "Topic" }) ∧
    ((fallbackScript { topic? := some "Topic" } :
      ScriptR).sections?.getD []).map (fun s => s.id?) = [some 1] :=
  ⟨(generate_script_fallback jparseNoneS "junk" { topic? := some "Topic" } rfl).1,
   (generate_script_fallback jparseNoneS "junk" { topic? := some "Topic" } rfl).2.2⟩

/-- A parse oracle consistent with `json.loads` on the single JSON text
it accepts — an object whose "sections" value is the empty list — and
rejecting everything else. -/
def jparseEmptySections : String → Option ScriptR :=
  fun s => if s = "\x7b\"sections\": []\x7d" then
    some { title? := none, intro? := none, sections? := some [], outro? := none }
  else none

/-- C3 counterexample: a parseable model output with an empty sections
list is returned by `generate_script` unchanged, so the returned
script's sections sequence is empty — refuting "non-empty sections
after fallback if needed" for every external output. -/
theorem generate_script_empty_sections_counterexample :
    generate_script jparseEmptySections
        (Except.ok "\x7b\"sections\": []\x7d") ({} : VisionR) =
      Except.ok { title? := none, intro? := none, sections? := some [], outro? := none } ∧
    ({ title? := none, intro? := none, sections? := some [], outro? := none } :
      ScriptR).sections?.getD [] = [] :=
  ⟨rfl, rfl⟩

/-- C2: When an unrecoverable exception escapes analysis or scripting
(the only stages whose failures escape — media and narration handle
their own), the coordinator's run is a clean prefix followed by exactly
one error event with the "Something went wrong" message and then the
terminal done: the whole run holds exactly one error and one done, and
its last event is done. -/
theorem run_pipeline_unrecoverable (env : PipelineEnv) (q : String)
    (h : (∃ m, analyze_photo env.jparseV env.decodeR env.visionCap q = Except.error m) ∨
      (∃ v m, analyze_photo env.jparseV env.decodeR env.visionCap q = Except.ok v ∧
        generate_script env.jparseS env.scriptCap v = Except.error m)) :
    (run_pipeline env q).countP isErrorEv = 1 ∧
    (run_pipeline env q).countP isDoneEv = 1 ∧
    (run_pipeline env q).getLast? = some Event.done ∧
    ∃ pre msg, run_pipeline env q = pre ++ [pipelineError msg, Event.done] ∧
      pre.countP isErrorEv = 0 ∧ pre.countP isDoneEv = 0 := by
  rcases h with ⟨m, hm⟩ | ⟨v, m, hv, hs⟩
  · have hrun : run_pipeline env q = [Event.status "Analyzing your image...",
        pipelineError m, Event.done] := by
      simp [run_pipeline, hm]
    rw [hrun]
    exact ⟨by simp [List.countP_cons, isErrorEv, pipelineError],
      by simp [List.countP_cons, isErrorEv, isDoneEv, pipelineError],
      rfl,
      [Event.status "Analyzing your image..."], m, rfl,
      by simp [List.countP_cons, isErrorEv],
      by simp [List.countP_cons, isDoneEv]⟩
  · have hrun : run_pipeline env q = [Event.status "Analyzing your image...",
        Event.meta v.subject? v.topic?, Event.status "Preparing your explainer...",
        pipelineError m, Event.done] := by
      simp [run_pipeline, hv, hs]
    rw [hrun]
    exact ⟨by simp [List.countP_cons, isErrorEv, pipelineError],
      by simp [List.countP_cons, isErrorEv, isDoneEv, pipelineError],
      rfl,
      [Event.status "Analyzing your image...", Event.meta v.subject? v.topic?,
        Event.status "Preparing your explainer..."], m, rfl,
      by simp [List.countP_cons, isErrorEv],
      by simp [List.countP_cons, isDoneEv]⟩

/-- A pipeline environment whose photo decode raises, used by the C2
witness (everything downstream is immaterial). -/
def envDecodeFail : PipelineEnv :=
  { jparseV := fun _ => none, decodeR := Except.error "bad base64",
    visionCap := Except.ok "x", jparseS := fun _ => none,
    scriptCap := Except.ok "x", imgCap := fun _ => Except.ok none,
    upload := fun _ _ => Except.ok "u", connect := Except.ok (fun _ => {}) }

/-- C2 witness: a failing photo decode yields exactly one error event
and a final done. -/
theorem run_pipeline_unrecoverable_witness :
    (run_pipeline envDecodeFail "q").countP isErrorEv = 1 ∧
    (run_pipeline envDecodeFail "q").getLast? = some Event.done :=
  ⟨(run_pipeline_unrecoverable envDecodeFail "q" (Or.inl ⟨"bad base64", rfl⟩)).1,
   (run_pipeline_unrecoverable envDecodeFail "q" (Or.inl ⟨"bad base64", rfl⟩)).2.2.1⟩

/-- C4: The coordinator emits no meta event when analysis raises, and
exactly one when analysis returns — carrying exactly the returned
record's subject and topic; in particular, on the degraded path (vision
output unparseable) the single meta event carries exactly what the
degraded record contains: subject "General" and topic "Unknown". -/
theorem run_pipeline_meta_once (env : PipelineEnv) (q : String) :
    (∀ m, analyze_photo env.jparseV env.decodeR env.visionCap q = Except.error m →
      (run_pipeline env q).countP isMetaEv = 0) ∧
    (∀ v, analyze_photo env.jparseV env.decodeR env.visionCap q = Except.ok v →
      (run_pipeline env q).countP isMetaEv = 1 ∧
        Event.meta v.subject? v.topic? ∈ run_pipeline env q) ∧
    (∀ resp, env.decodeR = Except.ok () → env.visionCap = Except.ok resp →
      env.jparseV (stripFences resp) = none →
      (run_pipeline env q).countP isMetaEv = 1 ∧
        Event.meta (some "General") (some "Unknown") ∈ run_pipeline env q) := by
  have main : ∀ v, analyze_photo env.jparseV env.decodeR env.visionCap q = Except.ok v →
      (run_pipeline env q).countP isMetaEv = 1 ∧
        Event.meta v.subject? v.topic? ∈ run_pipeline env q := by
    intro v hv
    cases hs : generate_script env.jparseS env.scriptCap v with
    | error msg =>
      have hrun : run_pipeline env q = [Event.status "Analyzing your image...",
          Event.meta v.subject? v.topic?, Event.status "Preparing your explainer...",
          pipelineError msg, Event.done] := by
        simp [run_pipeline, hv, hs]
      rw [hrun]
      exact ⟨by simp [List.countP_cons, isMetaEv, pipelineError], by simp⟩
    | ok script =>
      have hrun : run_pipeline env q = [Event.status "Analyzing your image...",
          Event.meta v.subject? v.topic?, Event.status "Preparing your explainer...",
          Event.title (script.title?.getD "Your Explainer")]
          ++ generate_all_images env.imgCap env.upload script
          ++ narrate_script env.connect script ++ [Event.done] := by
        simp [run_pipeline, hv, hs]
      rw [hrun]
      constructor
      · simp [List.countP_append, List.countP_cons, isMetaEv,
          countP_generate_all_images_meta, countP_narrate_script_meta]
      · simp
  refine ⟨?_, main, ?_⟩
  · intro m hm
    have hrun : run_pipeline env q = [Event.status "Analyzing your image...",
        pipelineError m, Event.done] := by
      simp [run_pipeline, hm]
    rw [hrun]
    simp [List.countP_cons, isMetaEv, pipelineError]
  · intro resp hdec hcap hj
    have hv : analyze_photo env.jparseV env.decodeR env.visionCap q =
        Except.ok { subject? := some "General", topic? := some "Unknown",
                    context? := some (stripFences resp), question? := some q } := by
      simp [analyze_photo, hdec, hcap, hj]
    exact main _ hv

/-- A pipeline environment where every stage succeeds but the vision
output is unparseable, used by the C4 witness. -/
def envDegraded : PipelineEnv :=
  { jparseV := fun _ => none, decodeR := Except.ok (),
    visionCap := Except.ok "not json", jparseS := fun _ => some script0,
    scriptCap := Except.ok "x", imgCap := fun _ => Except.ok none,
    upload := fun _ _ => Except.ok "u", connect := Except.ok sess0 }

/-- C4 witness: on the degraded analysis path the run contains exactly
one meta event and it carries "General"/"Unknown". -/
theorem run_pipeline_meta_once_witness :
    (run_pipeline envDegraded "q").countP isMetaEv = 1 ∧
      Event.meta (some "General") (some "Unknown") ∈ run_pipeline envDegraded "q" :=
  (run_pipeline_meta_once envDegraded "q").2.2 "not json" rfl rfl rfl

/-- C8: A question whose stripped text is empty, or one arriving before
a (non-empty) photo is stored, makes the handler push one error event
onto the queue and change nothing else — photo and task slots keep
their values and no action (in particular no job start) is performed;
otherwise the handler cancels-and-awaits any unfinished active task,
then drains the queue, and only then starts the new job, in exactly
that order, installing the new task in the state. -/
theorem handle_question_control (st : WsState) (text : String) (newJob : Nat) :
    (pyStrip text = "" →
      handle_question st text newJob =
        ({ st with queue := st.queue ++ [Event.error "Question text is empty."] }, [])) ∧
    (pyStrip text ≠ "" → st.photo_b64.getD "" = "" →
      handle_question st text newJob =
        ({ st with queue := st.queue ++ [Event.error "Please capture a photo first."] },
          [])) ∧
    (pyStrip text ≠ "" → st.photo_b64.getD "" ≠ "" →
      handle_question st text newJob =
        ({ photo_b64 := st.photo_b64,
           pipeline_task := some { jobId := newJob, finished := false },
           queue := [] },
         cancel_pipeline st ++ [WsAction.drainQueue, WsAction.startJob newJob]) ∧
      (∀ t, st.pipeline_task = some t → t.finished = false →
        cancel_pipeline st = [WsAction.cancelAwait t.jobId])) := by
  refine ⟨fun h1 => ?_, fun h1 h2 => ?_, fun h1 h2 => ⟨?_, fun t ht hf => ?_⟩⟩
  · simp [handle_question, h1]
  · simp [handle_question, h1, h2]
  · simp [handle_question, h1, h2]
  · simp [cancel_pipeline, ht, hf]

/-- A session state holding a photo and a live pipeline task, used by
the C8 witness. -/
def stRunning : WsState :=
  { photo_b64 := some "PHOTO", pipeline_task := some { jobId := 1, finished := false },
    queue := [Event.status "old"] }

/-- C8 witness: a valid question while job 1 runs cancels job 1, drains
the queue, then starts job 2, and an empty question leaves the state's
photo and task untouched. -/
theorem handle_question_control_witness :
    handle_question stRunning " ask " 2 =
      ({ photo_b64 := some "PHOTO", pipeline_task := some { jobId := 2, finished := false },
         queue := [] },
       [WsAction.cancelAwait 1, WsAction.drainQueue, WsAction.startJob 2]) ∧
    handle_question stRunning "" 2 =
      ({ stRunning with queue := stRunning.queue ++ [Event.error "Question text is empty."] },
        []) := by
  constructor
  · have h := (handle_question_control stRunning " ask " 2).2.2 (by decide) (by decide)
    rw [h.1]
    have hc := h.2 { jobId := 1, finished := false } rfl rfl
    rw [hc]
    rfl
  · exact (handle_question_control stRunning "" 2).1 rfl
